import Mathlib

/-!
Verification of the ChainWard Redis caching configuration
(`src/config/redis-cache-strategy.py`) against its specification.

The Python module is a configuration file: class constants and module-level
dictionaries, plus one static method `RedisCache.build_rpc_key`.  Every
dictionary below is embedded as an association list in source order; the
static method is embedded together with the Python name-resolution
environment it actually runs in, because the module never imports `json`.
Components that the specification describes but that are absent from the
source (the circuit-breaker state machine and the invalidation dispatcher's
placeholder resolution) are modelled from the spec and flagged as such in
their doc comments.
-/

namespace ChainWard

/-! ## Python runtime fragments needed by `build_rpc_key` -/

/-- Python exceptions that the embedded code can raise. -/
inductive PyError
| nameError (name : String)
deriving DecidableEq

/-- Names bound at module level in `redis-cache-strategy.py` once the module
has loaded: the class and the seven top-level dictionaries.  The module has
no `import` statements at top level, so no library module name (in
particular not `json`) is ever bound here. -/
def moduleBindings : List String :=
  ["RedisCache", "RPC_CACHE_STRATEGY", "QUERY_CACHE_STRATEGY",
   "CACHE_INVALIDATION", "BLOOM_FILTERS", "CIRCUIT_BREAKER",
   "CACHE_WARMING", "MEMORY_CONFIG"]

/-- Python name lookup: a name resolves if it is bound in the local scope or
at module level; otherwise evaluation raises `NameError`. -/
def lookupName (localBindings : List String) (n : String) : Except PyError Unit :=
  if n ∈ localBindings ∨ n ∈ moduleBindings then Except.ok () else Except.error (PyError.nameError n)

/-- Insert a key/value pair into a list sorted by key (string order). -/
def insertSorted (kv : String × String) : List (String × String) → List (String × String)
| [] => [kv]
| x :: xs => if kv.1 ≤ x.1 then kv :: x :: xs else x :: insertSorted kv xs

/-- Sort an association list by key, as `sort_keys=True` does. -/
def sortByKey (l : List (String × String)) : List (String × String) :=
  l.foldr insertSorted []

/-- Render one `"key": "value"` member of a JSON object. -/
def jsonMember (kv : String × String) : String :=
  "\"" ++ kv.1 ++ "\": \"" ++ kv.2 ++ "\""

/-- Comma-join a list of already rendered strings. -/
def joinComma : List String → String
| [] => ""
| [s] => s
| s :: rest => s ++ ", " ++ joinComma rest

/-- `json.dumps(params, sort_keys=True)` for a string-valued dict, modelled
at the interface of the external `json` library: members rendered in
ascending key order inside an object. -/
def json_dumps_sorted (params : List (String × String)) : String :=
  "\x7b" ++ joinComma ((sortByKey params).map jsonMember) ++ "\x7d"

/-- One hexadecimal digit. -/
def hexDigit (n : Nat) : Char :=
  if n < 10 then Char.ofNat (48 + n) else Char.ofNat (87 + n)

/-- Fixed-width big-endian hexadecimal rendering. -/
def toHex : Nat → Nat → List Char
| 0, _ => []
| k + 1, v => toHex k (v / 16) ++ [hexDigit (v % 16)]

/-- `hashlib.md5(s.encode()).hexdigest()`, modelled at the interface of the
external `hashlib` library: an arbitrary deterministic function from the
input string to a 32-character hex string.  Only determinism is relied on. -/
def md5_hexdigest (s : String) : String :=
  String.mk (toHex 32 (s.data.foldl (fun h c => (h * 31 + c.toNat) % 4294967296) 5381))

/-! ## `RedisCache` (source lines 7-42) -/

namespace RedisCache

def TTL_RPC_RESPONSE : Nat := 60

def TTL_REPORTER_STATS : Nat := 300

def TTL_INCIDENT_SUMMARY : Nat := 60

def TTL_CHAIN_METRICS : Nat := 300

def TTL_REWARD_POOL : Nat := 120

def TTL_HEALTH_STATUS : Nat := 30

def KEY_RPC_CALL : String := "rpc:{method}:{params_hash}"

def KEY_REPORTER : String := "reporter:{address}"

def KEY_REPORTER_STATS : String := "reporter_stats:{address}"

def KEY_INCIDENT : String := "incident:{incident_id}"

def KEY_INCIDENTS_BY_CHAIN : String := "incidents:chain:{chain_id}:page:{page}"

def KEY_INCIDENTS_LATEST : String := "incidents:latest:{count}"

def KEY_INCIDENT_SUMMARY : String := "incident_summary:{incident_id}"

def KEY_CHAIN_HEALTH : String := "chain:health:{chain_id}"

def KEY_CHAIN_METRICS : String := "chain:metrics:{chain_id}"

def KEY_GLOBAL_METRICS : String := "global:metrics"

def KEY_REWARD_POOL : String := "reward:pool:{contract_address}"

def KEY_DISPUTE : String := "dispute:{dispute_id}"

def KEY_SEARCH_INCIDENTS : String := "search:incidents:{query}:page:{page}"

def KEY_DASHBOARD_STATS : String := "dashboard:stats"

def KEY_REPORTER_LEADERBOARD : String := "leaderboard:reporters:page:{page}"

def KEY_CHAIN_LEADERBOARD : String := "leaderboard:chains"

/-- `RedisCache.build_rpc_key` (source lines 36-42).  The function body
first imports `hashlib` (an in-function import), then runs
`params_str = json.dumps(params, sort_keys=True)`, then
`params_hash = hashlib.md5(params_str.encode()).hexdigest()`, and returns
the f-string `rpc:\x7bmethod\x7d:\x7bparams_hash\x7d`.  Its local scope
binds `hashlib` and the two parameters; each global name used by the body
is resolved through `lookupName` at its point of use, exactly as CPython
does at call time. -/
def build_rpc_key (method : String) (params : List (String × String)) : Except PyError String := do
  let localBindings := ["hashlib", "method", "params"]
  let _ ← lookupName localBindings "json"
  let params_str := json_dumps_sorted params
  let _ ← lookupName localBindings "hashlib"
  let params_hash := md5_hexdigest params_str
  return "rpc:" ++ method ++ ":" ++ params_hash

end RedisCache

/-! ## `RPC_CACHE_STRATEGY` (source lines 45-76) -/

/-- One entry of `RPC_CACHE_STRATEGY`.  The Python dict values are
heterogeneous dicts; absent fields are `none`, `[]` or `false`. -/
structure RpcCacheEntry where
  ttl : Nat
  methods : List String
  cache_on : List String
  max_results : Option Nat
  cache_by_block_hash : Bool
  invalidate_on_new_block : Bool
deriving DecidableEq

def RPC_CACHE_STRATEGY : List (String × RpcCacheEntry) :=
  [("eth_call",
    { ttl := 60,
      methods := ["getChainConfig", "getReporterStats", "getIncidentDetails",
                  "getRewardPool", "getChainHealth"],
      cache_on := [], max_results := none,
      cache_by_block_hash := false, invalidate_on_new_block := false }),
   ("eth_getLogs",
    { ttl := 300,
      methods := [], cache_on := ["IncidentReported", "HealthReported"],
      max_results := some 1000,
      cache_by_block_hash := false, invalidate_on_new_block := false }),
   ("eth_getBlockByNumber",
    { ttl := 3600,
      methods := [], cache_on := [], max_results := none,
      cache_by_block_hash := true, invalidate_on_new_block := false }),
   ("eth_getBalance",
    { ttl := 15,
      methods := [], cache_on := [], max_results := none,
      cache_by_block_hash := false, invalidate_on_new_block := true })]

/-! ## `QUERY_CACHE_STRATEGY` (source lines 79-122) -/

/-- One entry of `QUERY_CACHE_STRATEGY`; absent dict fields are `none`/`[]`. -/
structure QueryCacheEntry where
  ttl : Nat
  invalidate_on : List String
  batch_size : Option Nat
  includes : List String
  aggregations : List String
  top_n : Option Nat
  sort_by : Option String
  count : Option Nat
  order : Option String
deriving DecidableEq

def QUERY_CACHE_STRATEGY : List (String × QueryCacheEntry) :=
  [("reporter_stats",
    { ttl := 300,
      invalidate_on := ["RewardClaimed", "Service Level AgreementshedFundsAdded"],
      batch_size := some 50, includes := [], aggregations := [],
      top_n := none, sort_by := none, count := none, order := none }),
   ("incident_summary",
    { ttl := 60,
      invalidate_on := ["IncidentReported", "IncidentResolved", "IncidentEscalated"],
      batch_size := none, includes := ["events", "chains", "evidence", "disputes"],
      aggregations := [], top_n := none, sort_by := none, count := none, order := none }),
   ("chain_metrics",
    { ttl := 300,
      invalidate_on := ["IncidentReported"],
      batch_size := none, includes := [],
      aggregations := ["total_incidents", "high_severity", "avg_latency", "active_reporters"],
      top_n := none, sort_by := none, count := none, order := none }),
   ("global_metrics",
    { ttl := 300,
      invalidate_on := ["IncidentReported", "RewardClaimed", "Service Level AgreementshedFundsAdded"],
      batch_size := none, includes := [], aggregations := ["all_chains"],
      top_n := none, sort_by := none, count := none, order := none }),
   ("reward_pool_status",
    { ttl := 120,
      invalidate_on := ["RewardClaimed", "Service Level AgreementshedFundsAdded", "PoolBalanceAdjusted"],
      batch_size := none, includes := [], aggregations := [],
      top_n := none, sort_by := none, count := none, order := none }),
   ("leaderboard_reporters",
    { ttl := 600,
      invalidate_on := [],
      batch_size := none, includes := ["accuracy", "rewards_earned", "reports_count"],
      aggregations := [], top_n := some 100, sort_by := some "reputation_score DESC",
      count := none, order := none }),
   ("recent_incidents",
    { ttl := 30,
      invalidate_on := [],
      batch_size := none, includes := ["reporter", "severity", "status"],
      aggregations := [], top_n := none, sort_by := none,
      count := some 20, order := some "timestamp DESC" })]

/-! ## `CACHE_INVALIDATION` (source lines 125-169) -/

def CACHE_INVALIDATION : List (String × List String) :=
  [("on_incident_reported",
    ["incidents:latest:*",
     "incidents:chain:{chain_id}:*",
     "incident_summary:{incident_id}",
     "chain:metrics:{chain_id}",
     "chain:health:{chain_id}",
     "global:metrics",
     "dashboard:stats",
     "leaderboard:chains",
     "search:incidents:*"]),
   ("on_incident_resolved",
    ["incident_summary:{incident_id}",
     "incidents:latest:*",
     "chain:metrics:{chain_id}",
     "global:metrics",
     "dashboard:stats"]),
   ("on_reward_claimed",
    ["reporter_stats:{address}",
     "reporter:{address}",
     "reward:pool:{contract_address}",
     "leaderboard:reporters:*",
     "global:metrics",
     "dashboard:stats"]),
   ("on_Service Level Agreementshed",
    ["reporter_stats:{address}",
     "reporter:{address}",
     "reward:pool:{contract_address}",
     "global:metrics",
     "leaderboard:reporters:*"]),
   ("on_dispute_resolved",
    ["dispute:{dispute_id}",
     "incident_summary:{incident_id}",
     "reporter_stats:{address}",
     "leaderboard:reporters:*"])]

/-- All key patterns appearing in `CACHE_INVALIDATION`, in table order. -/
def allInvalidationPatterns : List String :=
  (CACHE_INVALIDATION.map Prod.snd).foldr (· ++ ·) []

/-! ## `BLOOM_FILTERS` (source lines 172-190) -/

structure BloomFilterEntry where
  false_positive_rate : ℚ
  refresh_interval : Nat
  purpose : String
deriving DecidableEq

def BLOOM_FILTERS : List (String × BloomFilterEntry) :=
  [("active_reporters",
    { false_positive_rate := 1/100, refresh_interval := 3600,
      purpose := "Fast check if address is active reporter" }),
   ("processed_incidents",
    { false_positive_rate := 1/1000, refresh_interval := 86400,
      purpose := "Prevent duplicate processing" }),
   ("banned_reporters",
    { false_positive_rate := 1/1000, refresh_interval := 3600,
      purpose := "Fast rejection of banned addresses" })]

/-! ## `CIRCUIT_BREAKER` (source lines 193-199) -/

structure CircuitBreakerConfig where
  failure_threshold : Nat
  success_threshold : Nat
  timeout : Nat
  half_open_max_requests : Nat
  metrics_window : Nat
deriving DecidableEq

def CIRCUIT_BREAKER : CircuitBreakerConfig :=
  { failure_threshold := 5, success_threshold := 3, timeout := 30,
    half_open_max_requests := 1, metrics_window := 60 }

/-! ## `CACHE_WARMING` (source lines 202-225) -/

structure PeriodicRefresh where
  interval : Nat
  cache_keys : List String
deriving DecidableEq

structure CacheWarmingConfig where
  on_startup : List String
  on_new_block : List String
  periodic_refresh : PeriodicRefresh
deriving DecidableEq

def CACHE_WARMING : CacheWarmingConfig :=
  { on_startup :=
      ["global:metrics",
       "leaderboard:reporters:page:1",
       "leaderboard:chains",
       "dashboard:stats"],
    on_new_block :=
      ["chain:health:{chain_id}",
       "incidents:latest:20",
       "chain:metrics:{active_chain_ids}"],
    periodic_refresh :=
      { interval := 300,
        cache_keys :=
          ["global:metrics",
           "leaderboard:reporters:page:1",
           "leaderboard:reporters:page:2",
           "dashboard:stats"] } }

/-! ## Key patterns: placeholders, wildcards, resolution -/

/-- Worker for `placeholders`: scan the characters, collecting the name
between an opening and a closing brace; the accumulator is `some acc`
exactly while inside a placeholder. -/
def placeholdersAux : List Char → Option (List Char) → List String
| [], _ => []
| c :: cs, none =>
    if c = '\x7b' then placeholdersAux cs (some []) else placeholdersAux cs none
| c :: cs, some acc =>
    if c = '\x7d' then String.mk acc.reverse :: placeholdersAux cs none
    else placeholdersAux cs (some (c :: acc))

/-- The placeholder names occurring in a key-pattern template, in order. -/
def placeholders (s : String) : List String :=
  placeholdersAux s.data none

/-- `true` when the string contains no `*` character. -/
def wildcardFree (s : String) : Bool :=
  s.data.all (fun c => c ≠ '*')

/-- `true` when the string ends in the two-character suffix `:*`. -/
def endsWithColonStar (s : String) : Bool :=
  match s.data.reverse with
  | '*' :: ':' :: _ => true
  | _ => false

/-- A deletion pattern is well formed when it is either an exact key with no
wildcard at all, or ends in the suffix `:*` with no wildcard anywhere else. -/
def goodDeletionPattern (s : String) : Bool :=
  wildcardFree s ||
    (endsWithColonStar s && (s.data.take (s.data.length - 2)).all (fun c => c ≠ '*'))

/-- Worker for `resolvePattern`: copy characters through, and when a
placeholder closes, emit its binding (or re-emit the braces and name
verbatim when the name is unbound). -/
def substAux (bindings : List (String × String)) : List Char → Option (List Char) → List Char
| [], none => []
| [], some acc => '\x7b' :: acc.reverse
| c :: cs, none =>
    if c = '\x7b' then substAux bindings cs (some [])
    else c :: substAux bindings cs none
| c :: cs, some acc =>
    if c = '\x7d' then
      match List.lookup (String.mk acc.reverse) bindings with
      | some v => v.data ++ substAux bindings cs none
      | none => '\x7b' :: acc.reverse ++ '\x7d' :: substAux bindings cs none
    else substAux bindings cs (some (c :: acc))

/-- Modelled from the spec: the Invalidation Dispatcher is absent from the
source (only its static pattern table is), and the spec says it "resolves a
fixed, statically declared list of key patterns (parameterized by the
event's identifiers)".  Resolution substitutes the event's identifier
bindings for the `\x7bname\x7d` placeholders of a template. -/
def resolvePattern (bindings : List (String × String)) (p : String) : String :=
  String.mk (substAux bindings p.data none)

/-- The deletion patterns the dispatcher issues for an `IncidentReported`
event: the `on_incident_reported` row of `CACHE_INVALIDATION`, resolved
against the event's `chain_id` and `incident_id`. -/
def incidentReportedDeletions (chain incident : Nat) : List String :=
  ((List.lookup "on_incident_reported" CACHE_INVALIDATION).getD []).map
    (resolvePattern [("chain_id", toString chain), ("incident_id", toString incident)])

/-! ## Circuit breaker state machine

Modelled from the spec: the source only carries the `CIRCUIT_BREAKER`
thresholds (the spec notes the breaker state machine itself is
unimplemented and must be built).  The machine below follows spec section
4.1 verbatim, parameterized by the configuration; time is in seconds. -/

inductive BreakerTag
| Closed
| Open
| HalfOpen
deriving DecidableEq

/-- Breaker state per the spec's data model, extended with `store_calls`,
an observation counter incremented exactly when the protected operation is
actually issued to the backing store. -/
structure BreakerState where
  tag : BreakerTag
  consecutive_failures : Nat
  consecutive_successes : Nat
  window_start : Nat
  opened_at : Nat
  requests_in_half_open : Nat
  store_calls : Nat
deriving DecidableEq

/-- The outcome of one `execute` call: the operation ran (and succeeded or
failed), or the breaker rejected it with `BreakerOpenError` or
`BreakerHalfOpenSaturatedError`. -/
inductive CallOutcome
| executedOk
| executedFail
| rejectedOpen
| rejectedSaturated
deriving DecidableEq

/-- Initial breaker state: Closed with all counters zero. -/
def initBreaker : BreakerState :=
  { tag := BreakerTag.Closed, consecutive_failures := 0, consecutive_successes := 0,
    window_start := 0, opened_at := 0, requests_in_half_open := 0, store_calls := 0 }

/-- A call admitted while Closed: the operation runs; a success resets the
consecutive-failure count; a failure increments it within the rolling
`metrics_window` (a failure after the window expired starts a fresh
window), and reaching `failure_threshold` failures within the window opens
the breaker, recording `opened_at`. -/
def execClosed (cfg : CircuitBreakerConfig) (s : BreakerState) (now : Nat) (ok : Bool) :
    BreakerState × CallOutcome :=
  let s := { s with store_calls := s.store_calls + 1 }
  if ok then
    ({ s with consecutive_failures := 0 }, CallOutcome.executedOk)
  else
    let fresh := s.consecutive_failures = 0 ∨ cfg.metrics_window < now - s.window_start
    let ws := if fresh then now else s.window_start
    let cf := if fresh then 1 else s.consecutive_failures + 1
    if cfg.failure_threshold ≤ cf then
      ({ s with tag := BreakerTag.Open, consecutive_failures := cf,
                window_start := ws, opened_at := now }, CallOutcome.executedFail)
    else
      ({ s with consecutive_failures := cf, window_start := ws }, CallOutcome.executedFail)

/-- A call admitted while HalfOpen: beyond `half_open_max_requests`
concurrent probes the call is rejected as saturated; otherwise the probe
runs; on success, reaching `success_threshold` consecutive successes closes
the breaker and resets the counters; on failure the breaker reopens
immediately and `opened_at` is reset. -/
def execHalfOpen (cfg : CircuitBreakerConfig) (s : BreakerState) (now : Nat) (ok : Bool) :
    BreakerState × CallOutcome :=
  if cfg.half_open_max_requests ≤ s.requests_in_half_open then
    (s, CallOutcome.rejectedSaturated)
  else
    let s := { s with store_calls := s.store_calls + 1 }
    if ok then
      if cfg.success_threshold ≤ s.consecutive_successes + 1 then
        ({ s with tag := BreakerTag.Closed, consecutive_failures := 0,
                  consecutive_successes := 0 }, CallOutcome.executedOk)
      else
        ({ s with consecutive_successes := s.consecutive_successes + 1 },
         CallOutcome.executedOk)
    else
      ({ s with tag := BreakerTag.Open, opened_at := now,
                consecutive_successes := 0 }, CallOutcome.executedFail)

/-- The Open-to-HalfOpen transition taken when the Open timeout has
elapsed, before the next call executes. -/
def toHalfOpen (s : BreakerState) : BreakerState :=
  { s with tag := BreakerTag.HalfOpen, consecutive_successes := 0,
           requests_in_half_open := 0 }

/-- One call through the breaker at time `now`; `ok` is the result the
protected operation would produce if it were issued. -/
def execute (cfg : CircuitBreakerConfig) (s : BreakerState) (now : Nat) (ok : Bool) :
    BreakerState × CallOutcome :=
  match s.tag with
  | BreakerTag.Closed => execClosed cfg s now ok
  | BreakerTag.Open =>
      if now - s.opened_at < cfg.timeout then (s, CallOutcome.rejectedOpen)
      else execHalfOpen cfg (toHalfOpen s) now ok
  | BreakerTag.HalfOpen => execHalfOpen cfg s now ok

/-- Run a sequence of calls, each a (time, operation result) pair. -/
def runCalls (cfg : CircuitBreakerConfig) (calls : List (Nat × Bool)) (s : BreakerState) :
    BreakerState :=
  calls.foldl (fun st c => (execute cfg st c.1 c.2).1) s

/-! ## Domain events referenced by the configuration -/

/-- The eight DomainEvent tags of the spec's data model. -/
def domainEventTags : List String :=
  ["IncidentReported", "IncidentResolved", "IncidentEscalated", "RewardClaimed",
   "PoolFundsAdded", "PoolBalanceAdjusted", "DisputeResolved", "NewBlock"]

/-- Modelled from the spec: the Invalidation Dispatcher is absent from the
source, so the correspondence between an event tag and its
`CACHE_INVALIDATION` key follows the table's own evident naming convention,
`on_` followed by the snake-cased tag. -/
def invalidationHandlerKey : String → String
| "IncidentReported" => "on_incident_reported"
| "IncidentResolved" => "on_incident_resolved"
| "IncidentEscalated" => "on_incident_escalated"
| "RewardClaimed" => "on_reward_claimed"
| "PoolFundsAdded" => "on_pool_funds_added"
| "PoolBalanceAdjusted" => "on_pool_balance_adjusted"
| "DisputeResolved" => "on_dispute_resolved"
| "NewBlock" => "on_new_block"
| t => "on_" ++ t

/-- Every event name referenced by an `invalidate_on` field of
`QUERY_CACHE_STRATEGY`, in source order. -/
def invalidateOnNames : List String :=
  (QUERY_CACHE_STRATEGY.map (fun e => e.2.invalidate_on)).foldr (· ++ ·) []

/-- The identifiers that a triggering event's payload carries, per C10. -/
def allowedEventIdentifiers : List String :=
  ["chain_id", "incident_id", "address", "contract_address", "dispute_id"]

/-- An Open breaker state (as produced by five failures at times 0..4)
used to instantiate the Open-state clauses of the breaker theorem. -/
def openStateExample : BreakerState :=
  { tag := BreakerTag.Open, consecutive_failures := 5, consecutive_successes := 0,
    window_start := 0, opened_at := 4, requests_in_half_open := 0, store_calls := 5 }

/-- A HalfOpen breaker state used to instantiate the recovery clause of the
breaker theorem. -/
def halfOpenStateExample : BreakerState :=
  { tag := BreakerTag.HalfOpen, consecutive_failures := 5, consecutive_successes := 0,
    window_start := 0, opened_at := 4, requests_in_half_open := 0, store_calls := 6 }

/-! ## Helper lemmas -/

lemma runCalls_nil (cfg : CircuitBreakerConfig) (s : BreakerState) :
    runCalls cfg [] s = s := rfl

lemma runCalls_cons (cfg : CircuitBreakerConfig) (t : Nat) (b : Bool)
    (calls : List (Nat × Bool)) (s : BreakerState) :
    runCalls cfg ((t, b) :: calls) s = runCalls cfg calls (execute cfg s t b).1 := rfl

/-! ## Claims -/

/-- Claim C1 (code bug witness): at the concrete input
`build_rpc_key("eth_call", \x7b"to": "0x1"\x7d)` the function does not
return a cache key at all: it raises `NameError` on the unbound global
`json`, so the claimed deterministic, order-independent key is never
produced by the code as written. -/
theorem build_rpc_key_never_returns_key_at_input :
    RedisCache.build_rpc_key "eth_call" [("to", "0x1")] =
      Except.error (PyError.nameError "json") := rfl

/-- Claim C2: for every method name and parameter mapping,
`RedisCache.build_rpc_key` raises `NameError` on the name `json` rather
than returning a key, because the module never imports or otherwise binds
`json` while the function body calls `json.dumps`. -/
theorem build_rpc_key_raises_nameError (method : String) (params : List (String × String)) :
    RedisCache.build_rpc_key method params = Except.error (PyError.nameError "json") := rfl

/-- Claim C3: an `IncidentReported` event for chain 7, incident 42 resolves
the `on_incident_reported` row of `CACHE_INVALIDATION` to exactly the nine
listed deletion patterns, each exactly once and nothing else. -/
theorem incidentReported_deletions_exact :
    incidentReportedDeletions 7 42 =
      ["incidents:latest:*",
       "incidents:chain:7:*",
       "incident_summary:42",
       "chain:metrics:7",
       "chain:health:7",
       "global:metrics",
       "dashboard:stats",
       "leaderboard:chains",
       "search:incidents:*"] ∧
    (incidentReportedDeletions 7 42).Nodup := by
  constructor
  · rfl
  · decide

/-- Claim C4: the breaker configured by `CIRCUIT_BREAKER` satisfies the
specified state machine.  Starting Closed, after exactly 5 consecutive
failures within the 60-second metrics window the state is Open (after 4 it
is still Closed); every call attempted while Open before the 30-second
timeout is rejected with `BreakerOpenError` leaving the state — including
the store-call count — untouched; once the timeout has elapsed since
`opened_at`, the next call transitions the state to HalfOpen before
executing (and does reach the store); and after 3 consecutive HalfOpen
successes the state is Closed with `consecutive_failures` and
`consecutive_successes` reset. -/
theorem circuit_breaker_state_machine :
    (∀ t0 t1 t2 t3 t4 : Nat, t0 ≤ t1 → t1 ≤ t2 → t2 ≤ t3 → t3 ≤ t4 →
      t4 ≤ t0 + CIRCUIT_BREAKER.metrics_window →
      (runCalls CIRCUIT_BREAKER [(t0, false), (t1, false), (t2, false), (t3, false)]
          initBreaker).tag = BreakerTag.Closed ∧
      (runCalls CIRCUIT_BREAKER [(t0, false), (t1, false), (t2, false), (t3, false), (t4, false)]
          initBreaker).tag = BreakerTag.Open) ∧
    (∀ (s : BreakerState) (now : Nat) (r : Bool), s.tag = BreakerTag.Open →
      now - s.opened_at < CIRCUIT_BREAKER.timeout →
      execute CIRCUIT_BREAKER s now r = (s, CallOutcome.rejectedOpen)) ∧
    (∀ (s : BreakerState) (now : Nat) (r : Bool), s.tag = BreakerTag.Open →
      CIRCUIT_BREAKER.timeout ≤ now - s.opened_at →
      execute CIRCUIT_BREAKER s now r = execHalfOpen CIRCUIT_BREAKER (toHalfOpen s) now r ∧
      (execute CIRCUIT_BREAKER s now r).1.store_calls = s.store_calls + 1) ∧
    (∀ (s : BreakerState) (u1 u2 u3 : Nat), s.tag = BreakerTag.HalfOpen →
      s.consecutive_successes = 0 → s.requests_in_half_open = 0 →
      (runCalls CIRCUIT_BREAKER [(u1, true), (u2, true), (u3, true)] s).tag
        = BreakerTag.Closed ∧
      (runCalls CIRCUIT_BREAKER [(u1, true), (u2, true), (u3, true)] s).consecutive_failures = 0 ∧
      (runCalls CIRCUIT_BREAKER [(u1, true), (u2, true), (u3, true)] s).consecutive_successes
        = 0) := by
  refine ⟨?_, ?_, ?_, ?_⟩
  · intro t0 t1 t2 t3 t4 h01 h12 h23 h34 h40
    simp only [CIRCUIT_BREAKER] at h40
    have e0 : (execute CIRCUIT_BREAKER initBreaker t0 false).1 =
        { tag := BreakerTag.Closed, consecutive_failures := 1, consecutive_successes := 0,
          window_start := t0, opened_at := 0, requests_in_half_open := 0, store_calls := 1 } := by
      simp [execute, execClosed, initBreaker, CIRCUIT_BREAKER]
    have e1 : (execute CIRCUIT_BREAKER
        { tag := BreakerTag.Closed, consecutive_failures := 1, consecutive_successes := 0,
          window_start := t0, opened_at := 0, requests_in_half_open := 0, store_calls := 1 }
        t1 false).1 =
        { tag := BreakerTag.Closed, consecutive_failures := 2, consecutive_successes := 0,
          window_start := t0, opened_at := 0, requests_in_half_open := 0, store_calls := 2 } := by
      have hw : ¬ (60 < t1 - t0) := by omega
      simp [execute, execClosed, CIRCUIT_BREAKER, hw]
    have e2 : (execute CIRCUIT_BREAKER
        { tag := BreakerTag.Closed, consecutive_failures := 2, consecutive_successes := 0,
          window_start := t0, opened_at := 0, requests_in_half_open := 0, store_calls := 2 }
        t2 false).1 =
        { tag := BreakerTag.Closed, consecutive_failures := 3, consecutive_successes := 0,
          window_start := t0, opened_at := 0, requests_in_half_open := 0, store_calls := 3 } := by
      have hw : ¬ (60 < t2 - t0) := by omega
      simp [execute, execClosed, CIRCUIT_BREAKER, hw]
    have e3 : (execute CIRCUIT_BREAKER
        { tag := BreakerTag.Closed, consecutive_failures := 3, consecutive_successes := 0,
          window_start := t0, opened_at := 0, requests_in_half_open := 0, store_calls := 3 }
        t3 false).1 =
        { tag := BreakerTag.Closed, consecutive_failures := 4, consecutive_successes := 0,
          window_start := t0, opened_at := 0, requests_in_half_open := 0, store_calls := 4 } := by
      have hw : ¬ (60 < t3 - t0) := by omega
      simp [execute, execClosed, CIRCUIT_BREAKER, hw]
    have e4 : (execute CIRCUIT_BREAKER
        { tag := BreakerTag.Closed, consecutive_failures := 4, consecutive_successes := 0,
          window_start := t0, opened_at := 0, requests_in_half_open := 0, store_calls := 4 }
        t4 false).1 =
        { tag := BreakerTag.Open, consecutive_failures := 5, consecutive_successes := 0,
          window_start := t0, opened_at := t4, requests_in_half_open := 0, store_calls := 5 } := by
      have hw : ¬ (60 < t4 - t0) := by omega
      simp [execute, execClosed, CIRCUIT_BREAKER, hw]
    constructor
    · simp only [runCalls_cons, runCalls_nil, e0, e1, e2, e3]
    · simp only [runCalls_cons, runCalls_nil, e0, e1, e2, e3, e4]
  · intro s now r htag hlt
    simp only [execute, htag]
    rw [if_pos hlt]
  · intro s now r htag hge
    have hnl : ¬ (now - s.opened_at < CIRCUIT_BREAKER.timeout) := not_lt.mpr hge
    constructor
    · simp only [execute, htag]
      rw [if_neg hnl]
    · simp only [execute, htag]
      rw [if_neg hnl]
      cases r <;> simp [execHalfOpen, toHalfOpen, CIRCUIT_BREAKER]
  · intro s u1 u2 u3 htag hcs hrih
    simp [runCalls_cons, runCalls_nil, execute, execHalfOpen, htag, hcs, hrih, CIRCUIT_BREAKER]

/-- Witness for the breaker theorem: all four clauses instantiated at
concrete times and at the concrete Open and HalfOpen states above. -/
theorem circuit_breaker_state_machine_witness :
    ((runCalls CIRCUIT_BREAKER [(0, false), (1, false), (2, false), (3, false)] initBreaker).tag
        = BreakerTag.Closed ∧
     (runCalls CIRCUIT_BREAKER [(0, false), (1, false), (2, false), (3, false), (4, false)]
        initBreaker).tag = BreakerTag.Open) ∧
    execute CIRCUIT_BREAKER openStateExample 10 true
      = (openStateExample, CallOutcome.rejectedOpen) ∧
    (execute CIRCUIT_BREAKER openStateExample 40 true
        = execHalfOpen CIRCUIT_BREAKER (toHalfOpen openStateExample) 40 true ∧
     (execute CIRCUIT_BREAKER openStateExample 40 true).1.store_calls
        = openStateExample.store_calls + 1) ∧
    ((runCalls CIRCUIT_BREAKER [(40, true), (41, true), (42, true)] halfOpenStateExample).tag
        = BreakerTag.Closed ∧
     (runCalls CIRCUIT_BREAKER [(40, true), (41, true), (42, true)]
        halfOpenStateExample).consecutive_failures = 0 ∧
     (runCalls CIRCUIT_BREAKER [(40, true), (41, true), (42, true)]
        halfOpenStateExample).consecutive_successes = 0) :=
  ⟨circuit_breaker_state_machine.1 0 1 2 3 4
      (by decide) (by decide) (by decide) (by decide) (by decide),
   circuit_breaker_state_machine.2.1 openStateExample 10 true rfl (by decide),
   circuit_breaker_state_machine.2.2.1 openStateExample 40 true rfl (by decide),
   circuit_breaker_state_machine.2.2.2 halfOpenStateExample 40 41 42 rfl rfl rfl⟩

/-- Claim C5 counterexample: the static invalidation configuration does not
cover the eight DomainEvent tags, and it references an event name outside
them.  Concretely, `IncidentEscalated` has no `CACHE_INVALIDATION` row
(even though `incident_summary` declares it as an invalidation trigger),
and the `invalidate_on` lists reference
`"Service Level AgreementshedFundsAdded"`, which is none of the eight tags. -/
theorem invalidation_table_misses_tags_counterexample :
    ¬ (((domainEventTags.all fun t =>
          (List.lookup (invalidationHandlerKey t) CACHE_INVALIDATION).isSome) = true) ∧
       ((invalidateOnNames.all fun n => domainEventTags.contains n) = true)) := by
  decide

/-- Claim C5 (amended): the invalidation table declares pattern lists for
the tags IncidentReported, IncidentResolved, RewardClaimed and
DisputeResolved only; the tags IncidentEscalated, PoolFundsAdded,
PoolBalanceAdjusted and NewBlock have no row; the table's remaining key is
`"on_Service Level Agreementshed"`, derived from no tag; and every event
name referenced by the `invalidate_on` lists is one of the eight tags
except `"Service Level AgreementshedFundsAdded"`. -/
theorem invalidation_table_partial_coverage :
    (List.lookup (invalidationHandlerKey "IncidentReported") CACHE_INVALIDATION).isSome = true ∧
    (List.lookup (invalidationHandlerKey "IncidentResolved") CACHE_INVALIDATION).isSome = true ∧
    (List.lookup (invalidationHandlerKey "RewardClaimed") CACHE_INVALIDATION).isSome = true ∧
    (List.lookup (invalidationHandlerKey "DisputeResolved") CACHE_INVALIDATION).isSome = true ∧
    List.lookup (invalidationHandlerKey "IncidentEscalated") CACHE_INVALIDATION = none ∧
    List.lookup (invalidationHandlerKey "PoolFundsAdded") CACHE_INVALIDATION = none ∧
    List.lookup (invalidationHandlerKey "PoolBalanceAdjusted") CACHE_INVALIDATION = none ∧
    List.lookup (invalidationHandlerKey "NewBlock") CACHE_INVALIDATION = none ∧
    CACHE_INVALIDATION.map Prod.fst =
      ["on_incident_reported", "on_incident_resolved", "on_reward_claimed",
       "on_Service Level Agreementshed", "on_dispute_resolved"] ∧
    (invalidateOnNames.all fun n =>
      domainEventTags.contains n || n == "Service Level AgreementshedFundsAdded") = true ∧
    "Service Level AgreementshedFundsAdded" ∈ invalidateOnNames ∧
    "Service Level AgreementshedFundsAdded" ∉ domainEventTags := by
  decide

/-- Claim C6: the configured TTLs equal the spec's table — `rpc_response`
60 with per-method overrides `eth_getLogs` 300, `eth_getBlockByNumber`
3600 and `eth_getBalance` 15 marked invalidate-on-new-block;
`reporter_stats` 300, `incident_summary` 60, `chain_metrics` 300,
`reward_pool` 120, `chain_health` 30, `leaderboard` 600 and recent
incidents / search results 30 — and each strategy table binds each
resource class exactly once. -/
theorem ttl_policy_matches_spec_table :
    RedisCache.TTL_RPC_RESPONSE = 60 ∧
    (List.lookup "eth_getLogs" RPC_CACHE_STRATEGY).map RpcCacheEntry.ttl = some 300 ∧
    (List.lookup "eth_getBlockByNumber" RPC_CACHE_STRATEGY).map RpcCacheEntry.ttl = some 3600 ∧
    (List.lookup "eth_getBalance" RPC_CACHE_STRATEGY).map RpcCacheEntry.ttl = some 15 ∧
    (List.lookup "eth_getBalance" RPC_CACHE_STRATEGY).map RpcCacheEntry.invalidate_on_new_block =
      some true ∧
    RedisCache.TTL_REPORTER_STATS = 300 ∧
    (List.lookup "reporter_stats" QUERY_CACHE_STRATEGY).map QueryCacheEntry.ttl = some 300 ∧
    RedisCache.TTL_INCIDENT_SUMMARY = 60 ∧
    (List.lookup "incident_summary" QUERY_CACHE_STRATEGY).map QueryCacheEntry.ttl = some 60 ∧
    RedisCache.TTL_CHAIN_METRICS = 300 ∧
    (List.lookup "chain_metrics" QUERY_CACHE_STRATEGY).map QueryCacheEntry.ttl = some 300 ∧
    RedisCache.TTL_REWARD_POOL = 120 ∧
    (List.lookup "reward_pool_status" QUERY_CACHE_STRATEGY).map QueryCacheEntry.ttl = some 120 ∧
    RedisCache.TTL_HEALTH_STATUS = 30 ∧
    (List.lookup "leaderboard_reporters" QUERY_CACHE_STRATEGY).map QueryCacheEntry.ttl = some 600 ∧
    (List.lookup "recent_incidents" QUERY_CACHE_STRATEGY).map QueryCacheEntry.ttl = some 30 ∧
    (RPC_CACHE_STRATEGY.map Prod.fst).Nodup ∧
    (QUERY_CACHE_STRATEGY.map Prod.fst).Nodup := by
  decide

/-- Claim C7: every key pattern in `CACHE_INVALIDATION` is either wholly
wildcard-free (an exact key) or ends in the suffix `:*` with no wildcard
anywhere else. -/
theorem invalidation_patterns_wildcard_shape :
    allInvalidationPatterns.all goodDeletionPattern = true := by
  decide

/-- Claim C8: exactly the three membership filters `active_reporters`,
`processed_incidents` and `banned_reporters` are configured, with refresh
intervals 3600, 86400 and 3600 seconds and configured false-positive-rate
targets (0.01, 0.001 and 0.001). -/
theorem bloom_filters_config :
    BLOOM_FILTERS.map Prod.fst =
      ["active_reporters", "processed_incidents", "banned_reporters"] ∧
    BLOOM_FILTERS.map (fun e => e.2.refresh_interval) = [3600, 86400, 3600] ∧
    BLOOM_FILTERS.map (fun e => e.2.false_positive_rate) = [1/100, 1/1000, 1/1000] ∧
    (BLOOM_FILTERS.all fun e => 0 < e.2.false_positive_rate) = true := by
  refine ⟨rfl, rfl, rfl, by norm_num [BLOOM_FILTERS, List.all]⟩

/-- Claim C9: the warming scheduler's configuration sets the periodic
refresh interval to exactly 300 seconds, declares fixed hot-key lists for
startup and for each period, and lists the per-active-chain health and
metrics keys among the keys refreshed on NewBlock events. -/
theorem cache_warming_config :
    CACHE_WARMING.periodic_refresh.interval = 300 ∧
    CACHE_WARMING.on_startup =
      ["global:metrics", "leaderboard:reporters:page:1",
       "leaderboard:chains", "dashboard:stats"] ∧
    CACHE_WARMING.periodic_refresh.cache_keys =
      ["global:metrics", "leaderboard:reporters:page:1",
       "leaderboard:reporters:page:2", "dashboard:stats"] ∧
    CACHE_WARMING.on_new_block =
      ["chain:health:{chain_id}", "incidents:latest:20",
       "chain:metrics:{active_chain_ids}"] ∧
    "chain:health:{chain_id}" ∈ CACHE_WARMING.on_new_block ∧
    "chain:metrics:{active_chain_ids}" ∈ CACHE_WARMING.on_new_block := by
  refine ⟨rfl, rfl, rfl, rfl, by decide, by decide⟩

/-- Claim C10: every placeholder occurring in the `CACHE_INVALIDATION`
patterns is one of the event-payload identifiers `chain_id`, `incident_id`,
`address`, `contract_address`, `dispute_id`, so each pattern is fully
resolvable from the triggering event alone. -/
theorem invalidation_placeholders_resolvable :
    (allInvalidationPatterns.all fun p =>
      (placeholders p).all fun ident => allowedEventIdentifiers.contains ident) = true := by
  decide

end ChainWard
